import Mathlib

/-!
Shallow embedding of the Android Car repository's computepipe runner
`ClientConfig` (from `computepipe/runner/RunnerComponent.cpp`) and of the
CarWatchdog `IoPerfCollection` I/O performance collection module (its header
is in the repository; its method bodies are modelled from the specification
where noted).  All machine integers are modelled as `Nat`/`Int`; the C++
`double` percent-change field is modelled as `ℚ`.
-/

/-! ## Part 1: computepipe runner `ClientConfig` (RunnerComponent.cpp) -/

/-- Status codes from `types/Status.h` (declarations only; the two values used
by `RunnerComponent.cpp` are `SUCCESS` and `ILLEGAL_STATE`). -/
inductive Status where
  | SUCCESS
  | ILLEGAL_STATE
deriving DecidableEq, Repr

/-- Modelled from the spec: `kInvalidId` is the unconfigured sentinel declared
in `RunnerComponent.h` (not in the sources); its concrete value is irrelevant
to every theorem below, we fix -1. -/
def kInvalidId : Int := -1

/-- The `ClientConfig` runner event: stream / termination / offload ids and the
output-stream configuration map (`std::map<int, int>` modelled as an
association list) plus the optional-configs string. -/
structure ClientConfig where
  inputStreamId : Int
  terminationId : Int
  offloadId : Int
  outputConfigs : List (Int × Int)
  optionalConfigs : String
deriving DecidableEq, Repr

/-- The protobuf message `proto::ClientConfig` built by
`ClientConfig::getSerializedClientConfig`: the three ids and every entry of
`outputConfigs` copied into `output_options`. -/
structure ProtoClientConfig where
  input_stream_id : Int
  termination_id : Int
  offload_id : Int
  output_options : List (Int × Int)
deriving DecidableEq, Repr

/-- The message-building part of `ClientConfig::getSerializedClientConfig`
(RunnerComponent.cpp lines 46-54): sets the three ids and copies each
`outputConfigs` entry into the proto map. -/
def buildProtoClientConfig (c : ClientConfig) : ProtoClientConfig :=
  { input_stream_id := c.inputStreamId
    termination_id := c.terminationId
    offload_id := c.offloadId
    output_options := c.outputConfigs }

/-- `ClientConfig::getSerializedClientConfig` (RunnerComponent.cpp lines
45-59).  Protobuf serialization is an external collaborator, modelled as a
function `ser` returning `none` on `SerializeToString` failure; on failure the
method returns the empty string. -/
def getSerializedClientConfig (ser : ProtoClientConfig → Option String)
    (c : ClientConfig) : String :=
  match ser (buildProtoClientConfig c) with
  | none => ""
  | some output => output

/-- `ClientConfig::getInputStreamId` (RunnerComponent.cpp lines 61-67).  The
C++ out-parameter is modelled as the second component: `none` means the out
parameter was not written. -/
def getInputStreamId (c : ClientConfig) : Status × Option Int :=
  if c.inputStreamId = kInvalidId then (Status.ILLEGAL_STATE, none)
  else (Status.SUCCESS, some c.inputStreamId)

/-- `ClientConfig::getOffloadId` (RunnerComponent.cpp lines 69-75). -/
def getOffloadId (c : ClientConfig) : Status × Option Int :=
  if c.offloadId = kInvalidId then (Status.ILLEGAL_STATE, none)
  else (Status.SUCCESS, some c.offloadId)

/-- `ClientConfig::getTerminationId` (RunnerComponent.cpp lines 77-83). -/
def getTerminationId (c : ClientConfig) : Status × Option Int :=
  if c.terminationId = kInvalidId then (Status.ILLEGAL_STATE, none)
  else (Status.SUCCESS, some c.terminationId)

/-- `ClientConfig::getOutputStreamConfigs` (RunnerComponent.cpp lines 85-91):
`ILLEGAL_STATE` when the stored map is empty, otherwise the whole map is
copied to the out parameter. -/
def getOutputStreamConfigs (c : ClientConfig) : Status × Option (List (Int × Int)) :=
  if c.outputConfigs = [] then (Status.ILLEGAL_STATE, none)
  else (Status.SUCCESS, some c.outputConfigs)

/-- `ClientConfig::getOptionalConfigs` (RunnerComponent.cpp lines 93-96):
unconditionally copies the string and returns `SUCCESS`. -/
def getOptionalConfigs (c : ClientConfig) : Status × String :=
  (Status.SUCCESS, c.optionalConfigs)

/-- C6: each of `getInputStreamId`, `getOffloadId`, `getTerminationId` returns
`ILLEGAL_STATE` exactly when the corresponding id is still `kInvalidId`, and
otherwise returns `SUCCESS` with the id stored in the out parameter. -/
theorem clientConfig_id_getters_illegal_state_iff (c : ClientConfig) :
    ((getInputStreamId c).1 = Status.ILLEGAL_STATE ↔ c.inputStreamId = kInvalidId) ∧
    ((getOffloadId c).1 = Status.ILLEGAL_STATE ↔ c.offloadId = kInvalidId) ∧
    ((getTerminationId c).1 = Status.ILLEGAL_STATE ↔ c.terminationId = kInvalidId) ∧
    (c.inputStreamId ≠ kInvalidId →
      getInputStreamId c = (Status.SUCCESS, some c.inputStreamId)) ∧
    (c.offloadId ≠ kInvalidId →
      getOffloadId c = (Status.SUCCESS, some c.offloadId)) ∧
    (c.terminationId ≠ kInvalidId →
      getTerminationId c = (Status.SUCCESS, some c.terminationId)) := by
  unfold getInputStreamId getOffloadId getTerminationId
  by_cases h1 : c.inputStreamId = kInvalidId <;>
    by_cases h2 : c.offloadId = kInvalidId <;>
      by_cases h3 : c.terminationId = kInvalidId <;>
        simp [h1, h2, h3]

/-- C6 witness at a concrete configured config. -/
theorem clientConfig_id_getters_illegal_state_iff_witness :
    getInputStreamId ⟨7, 8, 9, [], ""⟩ = (Status.SUCCESS, some 7) :=
  (clientConfig_id_getters_illegal_state_iff ⟨7, 8, 9, [], ""⟩).2.2.2.1 (by decide)

/-- C8: `getOptionalConfigs` always returns `SUCCESS` (even for the empty
string), while `getOutputStreamConfigs` returns `ILLEGAL_STATE` exactly when
the output-config map is empty and otherwise returns `SUCCESS` with the whole
stored map. -/
theorem clientConfig_output_vs_optional_configs (c : ClientConfig) :
    ((getOptionalConfigs c).1 = Status.SUCCESS ∧
      (getOptionalConfigs c).2 = c.optionalConfigs) ∧
    ((getOutputStreamConfigs c).1 = Status.ILLEGAL_STATE ↔ c.outputConfigs = []) ∧
    (c.outputConfigs ≠ [] →
      getOutputStreamConfigs c = (Status.SUCCESS, some c.outputConfigs)) := by
  unfold getOptionalConfigs getOutputStreamConfigs
  by_cases h : c.outputConfigs = [] <;> simp [h]

/-- C8 witness: the empty optional string still yields `SUCCESS`, an empty
output map yields `ILLEGAL_STATE`, a nonempty one is copied out whole. -/
theorem clientConfig_output_vs_optional_configs_witness :
    (getOptionalConfigs ⟨1, 2, 3, [], ""⟩).1 = Status.SUCCESS ∧
    (getOutputStreamConfigs ⟨1, 2, 3, [], ""⟩).1 = Status.ILLEGAL_STATE ∧
    getOutputStreamConfigs ⟨1, 2, 3, [(4, 5)], ""⟩ =
      (Status.SUCCESS, some [(4, 5)]) :=
  ⟨(clientConfig_output_vs_optional_configs ⟨1, 2, 3, [], ""⟩).1.1,
   ((clientConfig_output_vs_optional_configs ⟨1, 2, 3, [], ""⟩).2.1).mpr rfl,
   (clientConfig_output_vs_optional_configs ⟨1, 2, 3, [(4, 5)], ""⟩).2.2 (by decide)⟩

/-- C9: `getSerializedClientConfig` returns `""` whenever serialization
fails, otherwise returns the serialization of the message built from
`inputStreamId`, `terminationId`, `offloadId` and every `outputConfigs` entry;
failure is indistinguishable from a config whose message serializes to `""`,
and the function is total (it always yields a string, never a `Status`). -/
theorem getSerializedClientConfig_failure_empty
    (ser : ProtoClientConfig → Option String) (c : ClientConfig) :
    (ser (buildProtoClientConfig c) = none → getSerializedClientConfig ser c = "") ∧
    (∀ s, ser (buildProtoClientConfig c) = some s →
      getSerializedClientConfig ser c = s) ∧
    (buildProtoClientConfig c =
      { input_stream_id := c.inputStreamId, termination_id := c.terminationId,
        offload_id := c.offloadId, output_options := c.outputConfigs }) ∧
    (∀ c2, ser (buildProtoClientConfig c) = none →
      ser (buildProtoClientConfig c2) = some "" →
      getSerializedClientConfig ser c = getSerializedClientConfig ser c2) := by
  refine ⟨?_, ?_, rfl, ?_⟩
  · intro h; unfold getSerializedClientConfig; rw [h]
  · intro s h; unfold getSerializedClientConfig; rw [h]
  · intro c2 h h2
    unfold getSerializedClientConfig
    rw [h, h2]

/-- C9 witness: a serializer that always fails yields `""`, and equals the
result on a config that serializes to the empty string. -/
theorem getSerializedClientConfig_failure_empty_witness :
    getSerializedClientConfig (fun _ => none) ⟨1, 2, 3, [], ""⟩ = "" :=
  (getSerializedClientConfig_failure_empty (fun _ => none) ⟨1, 2, 3, [], ""⟩).1 rfl

/-! ## Part 2: CarWatchdog `IoPerfCollection` (header in the sources; method
bodies modelled from the specification where noted) -/

/-- `kTopNStatsPerCategory` (header line 223). -/
def kTopNStatsPerCategory : Nat := 5

/-- Nanoseconds per second, to express the `std::chrono` durations. -/
def nsPerSecond : Nat := 1000000000

/-- `kBoottimeCollectionInterval = 1s` (header line 224), in nanoseconds. -/
def kBoottimeCollectionInterval : Nat := 1 * nsPerSecond

/-- `kPeriodicCollectionInterval = 10s` (header line 225), in nanoseconds. -/
def kPeriodicCollectionInterval : Nat := 10 * nsPerSecond

/-- `kPeriodicCollectionBufferSize = 180` (header line 227). -/
def kPeriodicCollectionBufferSize : Nat := 180

/-- `kMinCollectionInterval = 1s` (header line 230), in nanoseconds. -/
def kMinCollectionInterval : Nat := 1 * nsPerSecond

/-- `kCustomCollectionInterval = 10s` (header line 233), in nanoseconds. -/
def kCustomCollectionInterval : Nat := 10 * nsPerSecond

/-- `kCustomCollectionDuration = 30min` (header line 234), in nanoseconds. -/
def kCustomCollectionDuration : Nat := 30 * 60 * nsPerSecond

/-- Modelled from the spec: boot-time and custom caches are "effectively
unbounded"; we use the maximal 64-bit `size_t` value. -/
def kUnboundedCacheSize : Nat := 2 ^ 64 - 1

/-- One row of the external `/proc/uid_io/stats` parser (`UidIoStats`, out of
scope in the spec): per-UID cumulative foreground/background read bytes,
write bytes and fsync counts.  The kernel file is keyed by UID, so rows have
distinct UIDs. -/
structure UidIoUsage where
  uid : Nat
  fgRdBytes : Nat
  bgRdBytes : Nat
  fgWrBytes : Nat
  bgWrBytes : Nat
  fgFsync : Nat
  bgFsync : Nat
deriving DecidableEq, Repr

/-- Total (foreground + background) read bytes of a row. -/
def UidIoUsage.totalRdBytes (u : UidIoUsage) : Nat := u.fgRdBytes + u.bgRdBytes

/-- Total (foreground + background) write bytes of a row. -/
def UidIoUsage.totalWrBytes (u : UidIoUsage) : Nat := u.fgWrBytes + u.bgWrBytes

/-- Combined (read + write) byte throughput of a row; this is the ranking key
the specification text ascribes to "the" top-N list. -/
def UidIoUsage.combinedBytes (u : UidIoUsage) : Nat :=
  u.totalRdBytes + u.totalWrBytes

/-- Ranking order used for the top-N selection: higher key first, ties broken
by UID ascending. -/
def uidRank (key : UidIoUsage → Nat) (a b : UidIoUsage) : Prop :=
  key b < key a ∨ (key b = key a ∧ a.uid ≤ b.uid)

instance uidRank.decidableRel (key : UidIoUsage → Nat) : DecidableRel (uidRank key) :=
  fun a b =>
    inferInstanceAs (Decidable (key b < key a ∨ (key b = key a ∧ a.uid ≤ b.uid)))

instance uidRank.isTotal (key : UidIoUsage → Nat) :
    IsTotal UidIoUsage (uidRank key) := by
  constructor
  intro a b
  rcases Nat.lt_trichotomy (key a) (key b) with h | h | h
  · exact Or.inr (Or.inl h)
  · rcases Nat.le_total a.uid b.uid with h2 | h2
    · exact Or.inl (Or.inr ⟨h.symm, h2⟩)
    · exact Or.inr (Or.inr ⟨h, h2⟩)
  · exact Or.inl (Or.inl h)

instance uidRank.isTrans (key : UidIoUsage → Nat) :
    IsTrans UidIoUsage (uidRank key) := by
  constructor
  intro a b c hab hbc
  rcases hab with h1 | ⟨h1, h1u⟩
  · rcases hbc with h2 | ⟨h2, _⟩
    · exact Or.inl (Nat.lt_trans h2 h1)
    · exact Or.inl (h2 ▸ h1)
  · rcases hbc with h2 | ⟨h2, h2u⟩
    · exact Or.inl (h1 ▸ h2)
    · exact Or.inr ⟨h2.trans h1, Nat.le_trans h1u h2u⟩

/-- Modelled from the spec: the top-N selection of `collectUidIoPerfDataLocked`
(body not in the sources).  Rows are ranked by `key` descending with ties
broken by UID ascending, and the first `kTopNStatsPerCategory` are kept. -/
def topNUidsBy (key : UidIoUsage → Nat) (rows : List UidIoUsage) : List UidIoUsage :=
  (List.insertionSort (uidRank key) rows).take kTopNStatsPerCategory

/-- `UidIoPerfData::Stats` (header lines 238-243): user id, resolved package
name, and the per-state byte / fsync pairs of the ranked row. -/
structure UidIoPerfStats where
  userId : Nat
  packageName : String
  bytes : Nat × Nat
  fsync : Nat × Nat
deriving DecidableEq, Repr

/-- `UidIoPerfData` (header lines 237-247): the two top-N lists and the
regime-wide totals indexed by metric (read/write) and state (fg/bg). -/
structure UidIoPerfData where
  topNReads : List UidIoPerfStats
  topNWrites : List UidIoPerfStats
  totalRdFgBytes : Nat
  totalRdBgBytes : Nat
  totalWrFgBytes : Nat
  totalWrBgBytes : Nat
deriving DecidableEq, Repr

/-- `multiuser_get_user_id`: Android user id of a UID (AID_USER_OFFSET =
100000). -/
def userIdOfUid (uid : Nat) : Nat := uid / 100000

/-- Modelled from the spec: building one `UidIoPerfData::Stats` entry for the
reads list (bytes = read bytes per state, fsync per state); package names come
from the resolution collaborator. -/
def mkReadStats (resolve : Nat → String) (u : UidIoUsage) : UidIoPerfStats :=
  { userId := userIdOfUid u.uid, packageName := resolve u.uid,
    bytes := (u.fgRdBytes, u.bgRdBytes), fsync := (u.fgFsync, u.bgFsync) }

/-- Modelled from the spec: building one `UidIoPerfData::Stats` entry for the
writes list. -/
def mkWriteStats (resolve : Nat → String) (u : UidIoUsage) : UidIoPerfStats :=
  { userId := userIdOfUid u.uid, packageName := resolve u.uid,
    bytes := (u.fgWrBytes, u.bgWrBytes), fsync := (u.fgFsync, u.bgFsync) }

/-- Modelled from the spec: `collectUidIoPerfDataLocked` (body not in the
sources).  Ranks `topNReads` by total read bytes and `topNWrites` by total
write bytes — the two separate lists the header declares — and folds all rows
into the per-metric/per-state totals. -/
def collectUidIoPerfData (resolve : Nat → String) (rows : List UidIoUsage) :
    UidIoPerfData :=
  { topNReads := (topNUidsBy UidIoUsage.totalRdBytes rows).map (mkReadStats resolve)
    topNWrites := (topNUidsBy UidIoUsage.totalWrBytes rows).map (mkWriteStats resolve)
    totalRdFgBytes := (rows.map UidIoUsage.fgRdBytes).sum
    totalRdBgBytes := (rows.map UidIoUsage.bgRdBytes).sum
    totalWrFgBytes := (rows.map UidIoUsage.fgWrBytes).sum
    totalWrBgBytes := (rows.map UidIoUsage.bgWrBytes).sum }

/-- The selected top-N rows are sorted by the ranking key descending with
UID-ascending tie-break. -/
lemma topNUidsBy_sorted (key : UidIoUsage → Nat) (rows : List UidIoUsage) :
    List.Sorted (uidRank key) (topNUidsBy key rows) :=
  List.Pairwise.sublist (List.take_sublist _ _)
    (List.sorted_insertionSort (uidRank key) rows)

/-- The selected top-N rows never exceed `kTopNStatsPerCategory`. -/
lemma topNUidsBy_length_le (key : UidIoUsage → Nat) (rows : List UidIoUsage) :
    (topNUidsBy key rows).length ≤ kTopNStatsPerCategory :=
  List.length_take_le _ _

/-- Distinct input UIDs stay distinct in the selected top-N rows. -/
lemma topNUidsBy_nodup (key : UidIoUsage → Nat) (rows : List UidIoUsage)
    (h : (rows.map UidIoUsage.uid).Nodup) :
    ((topNUidsBy key rows).map UidIoUsage.uid).Nodup := by
  have hperm : List.Perm ((List.insertionSort (uidRank key) rows).map UidIoUsage.uid)
      (rows.map UidIoUsage.uid) :=
    (List.perm_insertionSort (uidRank key) rows).map UidIoUsage.uid
  have hsorted : ((List.insertionSort (uidRank key) rows).map UidIoUsage.uid).Nodup :=
    (hperm.nodup_iff).mpr h
  exact List.Nodup.sublist
    (List.Sublist.map UidIoUsage.uid (List.take_sublist _ _)) hsorted

/-- Concrete `/proc/uid_io/stats` input refuting the "single combined-ranked
list" reading: UID 1 is read-heavy (100 read bytes, 0 write), UID 2 is
write-heavy (50 read bytes, 500 write bytes). -/
def uidIoRowsReadWriteSplit : List UidIoUsage :=
  [⟨1, 100, 0, 0, 0, 0, 0⟩, ⟨2, 50, 0, 500, 0, 0, 0⟩]

/-- C5 counterexample: the UID I/O snapshot does not hold a single top-N list
ranked by combined byte throughput.  On `uidIoRowsReadWriteSplit` the snapshot
produces two distinct byte-ranked lists (`topNReads` ≠ `topNWrites`), and the
reads list is not sorted descending by combined bytes (UID 2 has combined 550
versus UID 1's 100, yet UID 1 leads the reads list). -/
theorem uidIo_topN_single_combined_list_counterexample :
    (collectUidIoPerfData (fun _ => "") uidIoRowsReadWriteSplit).topNReads ≠
      (collectUidIoPerfData (fun _ => "") uidIoRowsReadWriteSplit).topNWrites ∧
    ¬ List.Sorted (uidRank UidIoUsage.combinedBytes)
        (topNUidsBy UidIoUsage.totalRdBytes uidIoRowsReadWriteSplit) := by
  constructor
  · decide
  · decide

/-- C5 (amended): the UID I/O snapshot holds two top-N byte-ranked lists,
`topNReads` ranked by total read bytes and `topNWrites` ranked by total write
bytes; each selected list is sorted descending by its byte total with ties
broken by UID ascending, has length at most `kTopNStatsPerCategory = 5`, and
(for per-UID keyed input, as `/proc/uid_io/stats` is) contains no duplicate
UIDs. -/
theorem uidIo_topN_lists_ranked (resolve : Nat → String)
    (rows : List UidIoUsage) (h : (rows.map UidIoUsage.uid).Nodup) :
    (collectUidIoPerfData resolve rows).topNReads =
      (topNUidsBy UidIoUsage.totalRdBytes rows).map (mkReadStats resolve) ∧
    (collectUidIoPerfData resolve rows).topNWrites =
      (topNUidsBy UidIoUsage.totalWrBytes rows).map (mkWriteStats resolve) ∧
    List.Sorted (uidRank UidIoUsage.totalRdBytes)
      (topNUidsBy UidIoUsage.totalRdBytes rows) ∧
    List.Sorted (uidRank UidIoUsage.totalWrBytes)
      (topNUidsBy UidIoUsage.totalWrBytes rows) ∧
    (collectUidIoPerfData resolve rows).topNReads.length ≤ kTopNStatsPerCategory ∧
    (collectUidIoPerfData resolve rows).topNWrites.length ≤ kTopNStatsPerCategory ∧
    ((topNUidsBy UidIoUsage.totalRdBytes rows).map UidIoUsage.uid).Nodup ∧
    ((topNUidsBy UidIoUsage.totalWrBytes rows).map UidIoUsage.uid).Nodup := by
  refine ⟨rfl, rfl, topNUidsBy_sorted _ _, topNUidsBy_sorted _ _, ?_, ?_,
    topNUidsBy_nodup _ _ h, topNUidsBy_nodup _ _ h⟩
  · show ((topNUidsBy UidIoUsage.totalRdBytes rows).map (mkReadStats resolve)).length ≤
      kTopNStatsPerCategory
    rw [List.length_map]
    exact topNUidsBy_length_le _ _
  · show ((topNUidsBy UidIoUsage.totalWrBytes rows).map (mkWriteStats resolve)).length ≤
      kTopNStatsPerCategory
    rw [List.length_map]
    exact topNUidsBy_length_le _ _

/-- C5 witness on the concrete split input (whose UID column 1, 2 is
duplicate-free). -/
theorem uidIo_topN_lists_ranked_witness :
    ((uidIoRowsReadWriteSplit.map UidIoUsage.uid).Nodup) ∧
    ((topNUidsBy UidIoUsage.totalRdBytes uidIoRowsReadWriteSplit).map
      UidIoUsage.uid).Nodup :=
  ⟨by decide,
   (uidIo_topN_lists_ranked (fun _ => "") uidIoRowsReadWriteSplit
     (by decide)).2.2.2.2.2.2.1⟩

/-- `SystemIoPerfData` (header lines 252-257). -/
structure SystemIoPerfData where
  cpuIoWaitTime : Nat
  totalCpuTime : Nat
  ioBlockedProcessesCnt : Nat
  totalProcessesCnt : Nat
deriving DecidableEq, Repr

/-- `ProcessIoPerfData::Stats` (header lines 263-267). -/
structure ProcessIoPerfStats where
  userId : Nat
  packageName : String
  count : Nat
deriving DecidableEq, Repr

/-- `ProcessIoPerfData` (header lines 262-275); the C++ `double`
`majorFaultsPercentChange` is modelled as `ℚ`. -/
structure ProcessIoPerfData where
  topNIoBlockedUids : List ProcessIoPerfStats
  topNIoBlockedUidsTotalTaskCnt : List Nat
  topNMajorFaults : List ProcessIoPerfStats
  totalMajorFaults : Nat
  majorFaultsPercentChange : ℚ
deriving DecidableEq, Repr

/-- `IoPerfRecord` (header lines 279-284): one completed sample. -/
structure IoPerfRecord where
  time : Nat
  uidIoPerfData : UidIoPerfData
  systemIoPerfData : SystemIoPerfData
  processIoPerfData : ProcessIoPerfData
deriving DecidableEq, Repr

/-- `CollectionInfo` (header lines 288-293): interval, cache cap, last
collection uptime, and the cached records. -/
structure CollectionInfo where
  interval : Nat
  maxCacheSize : Nat
  lastCollectionUptime : Nat
  records : List IoPerfRecord
deriving DecidableEq, Repr

/-- Modelled from the spec: the caching step of `collectLocked` (body not in
the sources).  The new record is appended in chronological order; when the
cache is already at `maxCacheSize` the oldest record is evicted first, so the
cache never exceeds its cap. -/
def cacheRecord (info : CollectionInfo) (r : IoPerfRecord) : CollectionInfo :=
  { info with
    records :=
      (if info.maxCacheSize ≤ info.records.length then info.records.drop 1
       else info.records) ++ [r] }

/-- Folding a whole sequence of samples into a collection cache. -/
def cacheRecords (info : CollectionInfo) (rs : List IoPerfRecord) : CollectionInfo :=
  rs.foldl cacheRecord info

/-- `mPeriodicCollection` as (re)initialized for the periodic regime: interval
`kPeriodicCollectionInterval`, cap `kPeriodicCollectionBufferSize`, empty
cache. -/
def periodicCollectionInit : CollectionInfo :=
  { interval := kPeriodicCollectionInterval
    maxCacheSize := kPeriodicCollectionBufferSize
    lastCollectionUptime := 0
    records := [] }

/-- `cacheRecord` never grows the cache past its cap (for a cache currently
within cap). -/
lemma cacheRecord_length_le (info : CollectionInfo) (r : IoPerfRecord)
    (hcap : 1 ≤ info.maxCacheSize) (h : info.records.length ≤ info.maxCacheSize) :
    (cacheRecord info r).records.length ≤ info.maxCacheSize := by
  unfold cacheRecord
  by_cases hfull : info.maxCacheSize ≤ info.records.length
  · simp only [hfull, if_true, List.length_append, List.length_drop,
      List.length_cons, List.length_nil]
    omega
  · simp only [hfull, if_false, List.length_append, List.length_cons,
      List.length_nil]
    omega

/-- Closed form of the cache after folding a sample sequence: the cache holds
the suffix of the inserted sequence that fits under the cap, in insertion
order. -/
lemma cacheRecords_records_eq :
    ∀ (rs : List IoPerfRecord) (info : CollectionInfo),
      1 ≤ info.maxCacheSize → info.records.length ≤ info.maxCacheSize →
      (cacheRecords info rs).records =
        (info.records ++ rs).drop
          (info.records.length + rs.length - info.maxCacheSize)
  | [], info, _, hlen => by
      have h0 : info.records.length + ([] : List IoPerfRecord).length -
          info.maxCacheSize = 0 := by
        simp only [List.length_nil, Nat.add_zero]
        omega
      simp only [cacheRecords, List.foldl_nil, List.append_nil, List.length_nil,
        Nat.add_zero]
      rw [Nat.sub_eq_zero_of_le hlen, List.drop_zero]
  | r :: rs, info, hcap, hlen => by
      have hstep : (cacheRecord info r).maxCacheSize = info.maxCacheSize := rfl
      have hle : (cacheRecord info r).records.length ≤ info.maxCacheSize :=
        cacheRecord_length_le info r hcap hlen
      have ih := cacheRecords_records_eq rs (cacheRecord info r)
        (by rw [hstep]; exact hcap) (by rw [hstep]; exact hle)
      have hfold : cacheRecords info (r :: rs) =
          cacheRecords (cacheRecord info r) rs := rfl
      rw [hfold, ih, hstep]
      by_cases hfull : info.maxCacheSize ≤ info.records.length
      · have hlen2 : info.records.length = info.maxCacheSize :=
          Nat.le_antisymm hlen hfull
        have hne : 1 ≤ info.records.length := le_trans hcap hlen2.ge
        have hrec : (cacheRecord info r).records = info.records.drop 1 ++ [r] := by
          unfold cacheRecord
          simp [hfull]
        rw [hrec]
        have hidx1 : (info.records.drop 1 ++ [r]).length + rs.length -
            info.maxCacheSize = rs.length := by
          simp only [List.length_append, List.length_drop, List.length_cons,
            List.length_nil]
          omega
        have hidx2 : info.records.length + (r :: rs).length -
            info.maxCacheSize = rs.length + 1 := by
          simp only [List.length_cons]
          omega
        rw [hidx1, hidx2, List.append_assoc, List.singleton_append]
        have hdd : (info.records ++ r :: rs).drop (rs.length + 1) =
            ((info.records ++ r :: rs).drop 1).drop rs.length := by
          rw [List.drop_drop, Nat.add_comm]
        rw [hdd, List.drop_append_of_le_length hne]
      · have hrec : (cacheRecord info r).records = info.records ++ [r] := by
          unfold cacheRecord
          simp [hfull]
        rw [hrec]
        have hidx : (info.records ++ [r]).length + rs.length -
            info.maxCacheSize =
            info.records.length + (r :: rs).length - info.maxCacheSize := by
          simp only [List.length_append, List.length_cons, List.length_nil]
          omega
        rw [hidx, List.append_assoc, List.singleton_append]

/-- C1: the periodic collection history never exceeds its cap
`kPeriodicCollectionBufferSize = 180`; after `180 + k` samples (k ≥ 1) it
holds exactly the most recent 180 samples in chronological insertion order
(the oldest having been evicted first at each overflow). -/
theorem periodic_history_cap_and_eviction :
    kPeriodicCollectionBufferSize = 180 ∧
    (∀ rs : List IoPerfRecord,
      (cacheRecords periodicCollectionInit rs).records.length ≤
        kPeriodicCollectionBufferSize) ∧
    (∀ (rs : List IoPerfRecord) (k : Nat), 1 ≤ k →
      rs.length = kPeriodicCollectionBufferSize + k →
      (cacheRecords periodicCollectionInit rs).records = rs.drop k) := by
  have hclosed : ∀ rs : List IoPerfRecord,
      (cacheRecords periodicCollectionInit rs).records =
        rs.drop (rs.length - kPeriodicCollectionBufferSize) := by
    intro rs
    have h := cacheRecords_records_eq rs periodicCollectionInit
      (by decide) (by decide)
    rw [h]
    simp only [periodicCollectionInit, List.nil_append, List.length_nil,
      Nat.zero_add]
  refine ⟨rfl, ?_, ?_⟩
  · intro rs
    rw [hclosed rs, List.length_drop]
    omega
  · intro rs k hk hlen
    rw [hclosed rs, hlen]
    have hidx : kPeriodicCollectionBufferSize + k - kPeriodicCollectionBufferSize
        = k := by omega
    rw [hidx]

/-- A synthetic sample with the given collection time. -/
def sampleRecord (t : Nat) : IoPerfRecord :=
  { time := t
    uidIoPerfData := ⟨[], [], 0, 0, 0, 0⟩
    systemIoPerfData := ⟨0, 0, 0, 0⟩
    processIoPerfData := ⟨[], [], [], 0, 0⟩ }

/-- C1 witness: feeding 181 samples leaves exactly the 180 most recent. -/
theorem periodic_history_cap_and_eviction_witness :
    1 ≤ 1 ∧
    ((List.range (kPeriodicCollectionBufferSize + 1)).map sampleRecord).length =
      kPeriodicCollectionBufferSize + 1 ∧
    (cacheRecords periodicCollectionInit
        ((List.range (kPeriodicCollectionBufferSize + 1)).map sampleRecord)).records =
      ((List.range (kPeriodicCollectionBufferSize + 1)).map sampleRecord).drop 1 :=
  ⟨le_refl 1, by simp,
   (periodic_history_cap_and_eviction).2.2
     ((List.range (kPeriodicCollectionBufferSize + 1)).map sampleRecord) 1
     (le_refl 1) (by simp)⟩

/-- `CollectionEvent` (header lines 297-304). -/
inductive CollectionEvent where
  | INIT
  | BOOT_TIME
  | PERIODIC
  | CUSTOM
  | TERMINATED
deriving DecidableEq, Repr

/-- The error taxonomy of the collection engine (spec section 7); the header
only declares `android::base::Result<void>` returns. -/
inductive WdError where
  | AlreadyStarted
  | ThreadCreationError
  | InvalidState
  | AlreadyInProgress
  | NoActiveCollection
deriving DecidableEq, Repr

/-- The mutex-guarded state of `IoPerfCollection` (header lines 412-456):
current collection event, the three collection infos, the last major-fault
delta, and the pending custom-collection timeout message (the
`SwitchEvent::END_CUSTOM_COLLECTION` message scheduled at `maxDuration`). -/
structure IoPerfCollectionState where
  currCollectionEvent : CollectionEvent
  boottimeCollection : CollectionInfo
  periodicCollection : CollectionInfo
  customCollection : CollectionInfo
  lastMajorFaults : Nat
  pendingCustomTimeout : Option Nat
deriving DecidableEq, Repr

/-- The constructor state (header lines 333-344): event `INIT`, empty
collection infos, `mLastMajorFaults = 0`. -/
def ioPerfCollectionInit : IoPerfCollectionState :=
  { currCollectionEvent := CollectionEvent.INIT
    boottimeCollection := ⟨0, 0, 0, []⟩
    periodicCollection := ⟨0, 0, 0, []⟩
    customCollection := ⟨0, 0, 0, []⟩
    lastMajorFaults := 0
    pendingCustomTimeout := none }

/-- Modelled from the spec: `IoPerfCollection::start` (body not in the
sources).  Legal only in `INIT`; transitions to `BOOT_TIME` and initializes
the boot-time collection (interval `kBoottimeCollectionInterval`, effectively
unbounded cache). -/
def wdStart (s : IoPerfCollectionState) : Option WdError × IoPerfCollectionState :=
  if s.currCollectionEvent ≠ CollectionEvent.INIT then (some WdError.AlreadyStarted, s)
  else
    (none,
      { s with
        currCollectionEvent := CollectionEvent.BOOT_TIME
        boottimeCollection :=
          ⟨kBoottimeCollectionInterval, kUnboundedCacheSize, 0, []⟩ })

/-- Modelled from the spec: `IoPerfCollection::onBootFinished` (body not in
the sources).  Legal only in `BOOT_TIME`: freezes the boot-time cache
(nothing writes to it any more), transitions to `PERIODIC` and initializes the
periodic collection; outside `BOOT_TIME` it reports `InvalidState` and changes
nothing. -/
def wdOnBootFinished (s : IoPerfCollectionState) :
    Option WdError × IoPerfCollectionState :=
  if s.currCollectionEvent ≠ CollectionEvent.BOOT_TIME then
    (some WdError.InvalidState, s)
  else
    (none,
      { s with
        currCollectionEvent := CollectionEvent.PERIODIC
        periodicCollection := periodicCollectionInit })

/-- Modelled from the spec: `IoPerfCollection::startCustomCollectionLocked`
(header lines 370-378; body not in the sources).  Fails with
`AlreadyInProgress` when already `CUSTOM`; otherwise legal only from
`PERIODIC`: suspends (does not discard) the periodic collection, switches to
`CUSTOM` with the given interval, and schedules the
`SwitchEvent::END_CUSTOM_COLLECTION` timeout at `maxDuration`. -/
def wdStartCustomCollection (interval maxDuration : Nat)
    (s : IoPerfCollectionState) : Option WdError × IoPerfCollectionState :=
  if s.currCollectionEvent = CollectionEvent.CUSTOM then
    (some WdError.AlreadyInProgress, s)
  else if s.currCollectionEvent ≠ CollectionEvent.PERIODIC then
    (some WdError.InvalidState, s)
  else
    (none,
      { s with
        currCollectionEvent := CollectionEvent.CUSTOM
        customCollection := ⟨interval, kUnboundedCacheSize, 0, []⟩
        pendingCustomTimeout := some maxDuration })

/-- `startCustomCollectionLocked` invoked with its default arguments (header
lines 377-378): `kCustomCollectionInterval` and `kCustomCollectionDuration`. -/
def wdStartCustomCollectionDefault (s : IoPerfCollectionState) :
    Option WdError × IoPerfCollectionState :=
  wdStartCustomCollection kCustomCollectionInterval kCustomCollectionDuration s

/-- Modelled from the spec: `IoPerfCollection::endCustomCollectionLocked`
(header lines 380-383; body not in the sources).  Fails with
`NoActiveCollection` when not `CUSTOM`; otherwise dumps the custom history,
discards it, and resumes the periodic collection. -/
def wdEndCustomCollection (s : IoPerfCollectionState) :
    Option WdError × IoPerfCollectionState :=
  if s.currCollectionEvent ≠ CollectionEvent.CUSTOM then
    (some WdError.NoActiveCollection, s)
  else
    (none,
      { s with
        currCollectionEvent := CollectionEvent.PERIODIC
        customCollection := { s.customCollection with records := [] }
        pendingCustomTimeout := none })

/-- Modelled from the spec: delivery of the `SwitchEvent::END_CUSTOM_COLLECTION`
message the looper receives when `maxDuration` elapses (header lines 306-309:
"Ends custom collection, discards collected data and starts periodic
collection"), with no dump produced. -/
def wdHandleCustomTimeout (s : IoPerfCollectionState) : IoPerfCollectionState :=
  if s.currCollectionEvent = CollectionEvent.CUSTOM then
    { s with
      currCollectionEvent := CollectionEvent.PERIODIC
      customCollection := { s.customCollection with records := [] }
      pendingCustomTimeout := none }
  else s

/-- Modelled from the spec: one scheduled sampling pass (`collectLocked`),
which caches the sample into the collection info of the current regime and
reschedules; in `INIT`/`TERMINATED` no sampling is scheduled. -/
def wdCollectSample (r : IoPerfRecord) (s : IoPerfCollectionState) :
    IoPerfCollectionState :=
  match s.currCollectionEvent with
  | CollectionEvent.BOOT_TIME =>
      { s with boottimeCollection := cacheRecord s.boottimeCollection r }
  | CollectionEvent.PERIODIC =>
      { s with periodicCollection := cacheRecord s.periodicCollection r }
  | CollectionEvent.CUSTOM =>
      { s with customCollection := cacheRecord s.customCollection r }
  | _ => s

/-- Modelled from the spec: `IoPerfCollection::terminate` — transitions any
state to `TERMINATED` and joins the collection thread. -/
def wdTerminate (s : IoPerfCollectionState) : IoPerfCollectionState :=
  { s with currCollectionEvent := CollectionEvent.TERMINATED }

/-- C2: `startCustomCollection` while already `CUSTOM` fails with
`AlreadyInProgress`, and `endCustomCollection` while not `CUSTOM` fails with
`NoActiveCollection`; in both failure cases the whole state — regime and the
three collection histories — is returned unchanged. -/
theorem custom_collection_start_end_errors (s : IoPerfCollectionState)
    (interval maxDuration : Nat) :
    (s.currCollectionEvent = CollectionEvent.CUSTOM →
      wdStartCustomCollection interval maxDuration s =
        (some WdError.AlreadyInProgress, s)) ∧
    (s.currCollectionEvent ≠ CollectionEvent.CUSTOM →
      wdEndCustomCollection s = (some WdError.NoActiveCollection, s)) := by
  constructor
  · intro h
    unfold wdStartCustomCollection
    simp [h]
  · intro h
    unfold wdEndCustomCollection
    simp [h]

/-- C2 witness: a state already in `CUSTOM`, and one in `PERIODIC`. -/
theorem custom_collection_start_end_errors_witness :
    wdStartCustomCollection 5 7
        { ioPerfCollectionInit with currCollectionEvent := CollectionEvent.CUSTOM } =
      (some WdError.AlreadyInProgress,
        { ioPerfCollectionInit with currCollectionEvent := CollectionEvent.CUSTOM }) ∧
    wdEndCustomCollection
        { ioPerfCollectionInit with currCollectionEvent := CollectionEvent.PERIODIC } =
      (some WdError.NoActiveCollection,
        { ioPerfCollectionInit with currCollectionEvent := CollectionEvent.PERIODIC }) :=
  ⟨(custom_collection_start_end_errors
      { ioPerfCollectionInit with currCollectionEvent := CollectionEvent.CUSTOM }
      5 7).1 rfl,
   (custom_collection_start_end_errors
      { ioPerfCollectionInit with currCollectionEvent := CollectionEvent.PERIODIC }
      5 7).2 (by decide)⟩

/-- Sampling passes never change the current collection event. -/
lemma wdCollectSample_currEvent (r : IoPerfRecord) (s : IoPerfCollectionState) :
    (wdCollectSample r s).currCollectionEvent = s.currCollectionEvent := by
  cases hev : s.currCollectionEvent <;> simp [wdCollectSample, hev]

/-- Folding sampling passes never changes the current collection event. -/
lemma wdCollectSamples_currEvent (rs : List IoPerfRecord) :
    ∀ s : IoPerfCollectionState,
      (rs.foldl (fun t r => wdCollectSample r t) s).currCollectionEvent =
        s.currCollectionEvent := by
  induction rs with
  | nil => intro s; rfl
  | cons r rs ih =>
      intro s
      show (rs.foldl (fun t r => wdCollectSample r t)
        (wdCollectSample r s)).currCollectionEvent = _
      rw [ih (wdCollectSample r s), wdCollectSample_currEvent]

/-- C3: a custom collection started from `PERIODIC` and never explicitly
ended: when the `maxDuration` timeout message arrives — after any number of
custom sampling passes — the engine self-transitions back to `PERIODIC` and
the custom history is empty, with no dump produced. -/
theorem custom_collection_timeout_reverts_to_periodic
    (s : IoPerfCollectionState) (interval maxDuration : Nat)
    (rs : List IoPerfRecord)
    (h : s.currCollectionEvent = CollectionEvent.PERIODIC) :
    (wdHandleCustomTimeout
        (rs.foldl (fun t r => wdCollectSample r t)
          (wdStartCustomCollection interval maxDuration s).2)).currCollectionEvent =
      CollectionEvent.PERIODIC ∧
    (wdHandleCustomTimeout
        (rs.foldl (fun t r => wdCollectSample r t)
          (wdStartCustomCollection interval maxDuration s).2)).customCollection.records =
      [] := by
  have hstart : ((wdStartCustomCollection interval maxDuration s).2).currCollectionEvent =
      CollectionEvent.CUSTOM := by
    unfold wdStartCustomCollection
    rw [h]
    rfl
  have hcust : (rs.foldl (fun t r => wdCollectSample r t)
      (wdStartCustomCollection interval maxDuration s).2).currCollectionEvent =
      CollectionEvent.CUSTOM := by
    rw [wdCollectSamples_currEvent, hstart]
  unfold wdHandleCustomTimeout
  rw [hcust]
  exact ⟨rfl, rfl⟩

/-- C3 witness: starting from the periodic regime, sampling twice and letting
the timeout fire leaves regime `PERIODIC` with an empty custom history. -/
theorem custom_collection_timeout_reverts_to_periodic_witness :
    (wdHandleCustomTimeout
        ([sampleRecord 1, sampleRecord 2].foldl (fun t r => wdCollectSample r t)
          (wdStartCustomCollection 5 7
            { ioPerfCollectionInit with
              currCollectionEvent := CollectionEvent.PERIODIC }).2)).currCollectionEvent =
      CollectionEvent.PERIODIC :=
  (custom_collection_timeout_reverts_to_periodic
    { ioPerfCollectionInit with currCollectionEvent := CollectionEvent.PERIODIC }
    5 7 [sampleRecord 1, sampleRecord 2] rfl).1

/-- C10: the default arguments of `startCustomCollectionLocked` (header lines
376-378) are `kCustomCollectionInterval` = 10 seconds and
`kCustomCollectionDuration` = 30 minutes, and a default-argument invocation
from the periodic regime starts the custom collection with that interval and
schedules its timeout at that duration. -/
theorem custom_collection_default_arguments (s : IoPerfCollectionState) :
    kCustomCollectionInterval = 10 * nsPerSecond ∧
    kCustomCollectionDuration = 30 * 60 * nsPerSecond ∧
    wdStartCustomCollectionDefault s =
      wdStartCustomCollection kCustomCollectionInterval kCustomCollectionDuration s ∧
    (s.currCollectionEvent = CollectionEvent.PERIODIC →
      (wdStartCustomCollectionDefault s).2.customCollection.interval =
          kCustomCollectionInterval ∧
        (wdStartCustomCollectionDefault s).2.pendingCustomTimeout =
          some kCustomCollectionDuration) := by
  refine ⟨rfl, rfl, rfl, ?_⟩
  intro h
  unfold wdStartCustomCollectionDefault wdStartCustomCollection
  rw [h]
  exact ⟨rfl, rfl⟩

/-- C10 witness from the periodic regime. -/
theorem custom_collection_default_arguments_witness :
    (wdStartCustomCollectionDefault
        { ioPerfCollectionInit with
          currCollectionEvent := CollectionEvent.PERIODIC }).2.customCollection.interval =
      kCustomCollectionInterval :=
  ((custom_collection_default_arguments
      { ioPerfCollectionInit with
        currCollectionEvent := CollectionEvent.PERIODIC }).2.2.2 rfl).1

/-- C4: `majorFaultsPercentChange` as specified — 0 with a zero baseline and
`(delta - lastDelta) / lastDelta * 100` otherwise (the C++ `double` is
modelled as `ℚ`). -/
def majorFaultsPercentChange (lastDelta delta : Nat) : ℚ :=
  if lastDelta = 0 then 0
  else (((delta : ℚ) - (lastDelta : ℚ)) / (lastDelta : ℚ)) * 100

/-- C4: on the first sample of a regime the baseline `mLastMajorFaults` is its
constructor value 0 and the percent change is 0; with a nonzero baseline the
percent change is `(delta - lastDelta) / lastDelta * 100` and the divisor is
provably nonzero, so the computation never divides by zero. -/
theorem major_faults_percent_change_never_div_zero (lastDelta delta : Nat) :
    ioPerfCollectionInit.lastMajorFaults = 0 ∧
    majorFaultsPercentChange ioPerfCollectionInit.lastMajorFaults delta = 0 ∧
    (lastDelta = 0 → majorFaultsPercentChange lastDelta delta = 0) ∧
    (lastDelta ≠ 0 →
      (lastDelta : ℚ) ≠ 0 ∧
        majorFaultsPercentChange lastDelta delta =
          (((delta : ℚ) - (lastDelta : ℚ)) / (lastDelta : ℚ)) * 100) := by
  refine ⟨rfl, rfl, ?_, ?_⟩
  · intro h
    simp [majorFaultsPercentChange, h]
  · intro h
    refine ⟨Nat.cast_ne_zero.mpr h, ?_⟩
    simp [majorFaultsPercentChange, h]

/-- C4 witness at baseline 4, delta 6: percent change 50. -/
theorem major_faults_percent_change_never_div_zero_witness :
    majorFaultsPercentChange 0 6 = 0 ∧
    majorFaultsPercentChange 4 6 =
      (((6 : ℚ) - (4 : ℚ)) / (4 : ℚ)) * 100 :=
  ⟨(major_faults_percent_change_never_div_zero 0 6).2.2.1 rfl,
   ((major_faults_percent_change_never_div_zero 4 6).2.2.2 (by decide)).2⟩

/-- Caller operations of the `start → onBootFinished → (sample)* → terminate`
sequence. -/
inductive WdOp where
  | opStart
  | opBootFinished
  | opSample (r : IoPerfRecord)
  | opTerminate

/-- Applying one caller operation to the collection state (the error result of
a failed call leaves the state unchanged). -/
def wdApplyOp (o : WdOp) (s : IoPerfCollectionState) : IoPerfCollectionState :=
  match o with
  | WdOp.opStart => (wdStart s).2
  | WdOp.opBootFinished => (wdOnBootFinished s).2
  | WdOp.opSample r => wdCollectSample r s
  | WdOp.opTerminate => wdTerminate s

/-- The sequence of states visited while executing a list of operations,
starting state included. -/
def wdStateTrace (s : IoPerfCollectionState) : List WdOp → List IoPerfCollectionState
  | [] => [s]
  | o :: ops => s :: wdStateTrace (wdApplyOp o s) ops

/-- The state after executing a list of operations. -/
def wdRun (s : IoPerfCollectionState) (ops : List WdOp) : IoPerfCollectionState :=
  ops.foldl (fun t o => wdApplyOp o t) s

/-- Number of adjacent `BOOT_TIME → PERIODIC` transitions in an event trace. -/
def countBootToPeriodic : List CollectionEvent → Nat
  | a :: b :: rest =>
      (if a = CollectionEvent.BOOT_TIME ∧ b = CollectionEvent.PERIODIC then 1 else 0) +
        countBootToPeriodic (b :: rest)
  | _ => 0

lemma countBootToPeriodic_cons2 (a b : CollectionEvent) (l : List CollectionEvent) :
    countBootToPeriodic (a :: b :: l) =
      (if a = CollectionEvent.BOOT_TIME ∧ b = CollectionEvent.PERIODIC then 1 else 0) +
        countBootToPeriodic (b :: l) := rfl

/-- The call sequence of C7: `start`, `onBootFinished`, the given samples,
`terminate`. -/
def bootSequenceOps (rs : List IoPerfRecord) : List WdOp :=
  WdOp.opStart :: WdOp.opBootFinished ::
    (rs.map WdOp.opSample ++ [WdOp.opTerminate])

/-- A state trace always starts with its initial state. -/
lemma wdStateTrace_map_cons (f : IoPerfCollectionState → CollectionEvent)
    (ops : List WdOp) (s : IoPerfCollectionState) :
    ∃ l, (wdStateTrace s ops).map f = f s :: l := by
  cases ops with
  | nil => exact ⟨[], rfl⟩
  | cons o ops => exact ⟨_, rfl⟩

/-- A sampling pass in the periodic regime leaves the boot-time history
untouched. -/
lemma wdCollectSample_boottime_periodic (r : IoPerfRecord)
    (s : IoPerfCollectionState)
    (h : s.currCollectionEvent = CollectionEvent.PERIODIC) :
    (wdCollectSample r s).boottimeCollection = s.boottimeCollection := by
  simp [wdCollectSample, h]

/-- From a periodic-regime state, a run of sampling passes followed by
`terminate` makes no `BOOT_TIME → PERIODIC` transition and never writes to the
boot-time history. -/
lemma periodic_tail_no_transition :
    ∀ (rs : List IoPerfRecord) (s : IoPerfCollectionState),
      s.currCollectionEvent = CollectionEvent.PERIODIC →
      countBootToPeriodic
        ((wdStateTrace s (rs.map WdOp.opSample ++ [WdOp.opTerminate])).map
          IoPerfCollectionState.currCollectionEvent) = 0 ∧
      (wdRun s (rs.map WdOp.opSample ++ [WdOp.opTerminate])).boottimeCollection =
        s.boottimeCollection
  | [], s, h => by
      constructor
      · show countBootToPeriodic
          [s.currCollectionEvent, (wdTerminate s).currCollectionEvent] = 0
        rw [h]
        rfl
      · rfl
  | r :: rs, s, h => by
      have h2 : (wdCollectSample r s).currCollectionEvent =
          CollectionEvent.PERIODIC := by
        rw [wdCollectSample_currEvent, h]
      obtain ⟨ihc, ihb⟩ := periodic_tail_no_transition rs (wdCollectSample r s) h2
      constructor
      · obtain ⟨l, hl⟩ := wdStateTrace_map_cons
          IoPerfCollectionState.currCollectionEvent
          (rs.map WdOp.opSample ++ [WdOp.opTerminate]) (wdCollectSample r s)
        show countBootToPeriodic (s.currCollectionEvent ::
          (wdStateTrace (wdCollectSample r s)
            (rs.map WdOp.opSample ++ [WdOp.opTerminate])).map
              IoPerfCollectionState.currCollectionEvent) = 0
        rw [hl] at ihc ⊢
        rw [countBootToPeriodic_cons2, h]
        simp [ihc]
      · show (wdRun (wdCollectSample r s)
          (rs.map WdOp.opSample ++ [WdOp.opTerminate])).boottimeCollection =
            s.boottimeCollection
        rw [ihb, wdCollectSample_boottime_periodic r s h]

/-- C7: along every `start → onBootFinished → (sample)* → terminate` sequence
exactly one `BOOT_TIME → PERIODIC` transition occurs and the boot-time history
is frozen after `onBootFinished` (equal at `terminate` to its value right
after `onBootFinished`), while `onBootFinished` outside the `BOOT_TIME` regime
is a no-op that reports `InvalidState`. -/
theorem boot_to_periodic_once_and_frozen (rs : List IoPerfRecord) :
    countBootToPeriodic
      ((wdStateTrace ioPerfCollectionInit (bootSequenceOps rs)).map
        IoPerfCollectionState.currCollectionEvent) = 1 ∧
    (wdRun ioPerfCollectionInit (bootSequenceOps rs)).boottimeCollection =
      ((wdOnBootFinished (wdStart ioPerfCollectionInit).2).2).boottimeCollection ∧
    (∀ s, s.currCollectionEvent ≠ CollectionEvent.BOOT_TIME →
      wdOnBootFinished s = (some WdError.InvalidState, s)) := by
  have hs2 : ((wdOnBootFinished (wdStart ioPerfCollectionInit).2).2).currCollectionEvent =
      CollectionEvent.PERIODIC := rfl
  obtain ⟨hc, hb⟩ := periodic_tail_no_transition rs
    ((wdOnBootFinished (wdStart ioPerfCollectionInit).2).2) hs2
  refine ⟨?_, ?_, ?_⟩
  · obtain ⟨l, hl⟩ := wdStateTrace_map_cons
      IoPerfCollectionState.currCollectionEvent
      (rs.map WdOp.opSample ++ [WdOp.opTerminate])
      ((wdOnBootFinished (wdStart ioPerfCollectionInit).2).2)
    show countBootToPeriodic
      (CollectionEvent.INIT :: CollectionEvent.BOOT_TIME ::
        (wdStateTrace ((wdOnBootFinished (wdStart ioPerfCollectionInit).2).2)
          (rs.map WdOp.opSample ++ [WdOp.opTerminate])).map
            IoPerfCollectionState.currCollectionEvent) = 1
    rw [hl] at hc ⊢
    rw [hs2] at hc ⊢
    rw [countBootToPeriodic_cons2, countBootToPeriodic_cons2]
    simp [hc]
  · exact hb
  · intro s h
    unfold wdOnBootFinished
    simp [h]

/-- C7 witness: the one-sample sequence, and `onBootFinished` from the
constructor state reporting `InvalidState`. -/
theorem boot_to_periodic_once_and_frozen_witness :
    countBootToPeriodic
      ((wdStateTrace ioPerfCollectionInit (bootSequenceOps [sampleRecord 3])).map
        IoPerfCollectionState.currCollectionEvent) = 1 ∧
    wdOnBootFinished ioPerfCollectionInit =
      (some WdError.InvalidState, ioPerfCollectionInit) :=
  ⟨(boot_to_periodic_once_and_frozen [sampleRecord 3]).1,
   (boot_to_periodic_once_and_frozen [sampleRecord 3]).2.2 ioPerfCollectionInit
     (by decide)⟩
